import Mathlib

/-
Verification of the gitty terminal git front-end.

The development shallowly embeds the pure cores of the program:
  * the text-level helpers used by the porcelain parsers
    (strings.TrimSpace, strings.Split on newline, strings.Contains),
  * the status-porcelain parsers GetStatus / GetChanges (internal/git/git.go),
  * the lock-retry loop of Execute (internal/git/git.go), with the
    process environment abstracted as a sequence of attempt observations,
  * the rebase-script builder of ExecuteRebase (internal/git/git.go),
  * the rebase-count validation of loadRebaseCommits (helpers.go),
  * the interaction state machine: the list-message reconciliation cases of
    Update and the key handlers handleWorkspaceKey, handleToolsMenuKey,
    selectToolMenuItem and handleBranchesKey (hooks.go / main.go model).

Text is modelled as List Char (Go strings are byte sequences; all formats
involved are ASCII, where the two views coincide).  Go ints that are only
ever non-negative (cursors, offsets, lengths, heights) are modelled as Nat;
Go's `x < len-1` tests agree with Nat subtraction on that range.
-/

namespace Gitty

/-! ## Text helpers (Go strings package) -/

/-- Character class of Go's unicode.IsSpace restricted to Latin-1,
    as used by strings.TrimSpace. -/
def goIsSpace (c : Char) : Bool :=
  c == ' ' || c == '\t' || c == '\n' || c == '\x0b' || c == '\x0c' || c == '\r' ||
  c == '\u0085' || c == '\u00A0'

/-- Model of Go strings.TrimSpace: drop whitespace from both ends. -/
def trimSpace (s : List Char) : List Char :=
  ((s.dropWhile goIsSpace).reverse.dropWhile goIsSpace).reverse

/-- Model of Go strings.Split(s, "\n"): the list of newline-separated
    segments; the empty string yields one empty segment. -/
def splitOnNL : List Char → List (List Char)
  | [] => [[]]
  | c :: cs =>
    if c = '\n' then
      [] :: splitOnNL cs
    else
      match splitOnNL cs with
      | [] => [[c]]
      | l :: ls => (c :: l) :: ls

/-- Model of Go strings.HasPrefix: the first argument is a prefix of the
    second. -/
def listPrefixOf : List Char → List Char → Bool
  | [], _ => true
  | _ :: _, [] => false
  | a :: as, b :: bs => a == b && listPrefixOf as bs

/-- Model of Go strings.Contains: the needle occurs as a contiguous
    substring of the haystack. -/
def listContainsSub : List Char → List Char → Bool
  | hay, needle =>
    if listPrefixOf needle hay then true
    else
      match hay with
      | [] => false
      | _ :: t => listContainsSub t needle

/-! ## Status-porcelain parsers (internal/git/git.go) -/

/-- Porcelain-derived part of the git.Status record (the Branch, Ahead and
    Behind fields come from separate subprocess calls and are not part of
    the porcelain parse). -/
structure Status where
  clean : Bool
  stagedFiles : Nat
  unstagedFiles : Nat
deriving DecidableEq, Repr

/-- One parsed change record; GetChanges populates only File and Status
    (the Go struct's Type and Scope fields are never assigned). -/
structure Change where
  file : List Char
  status : List Char
deriving DecidableEq, Repr, Inhabited

/-- Per-line counting loop of GetStatus: blank lines are skipped, lines of
    at least two characters contribute to the staged count when their first
    character is neither space nor question mark, and to the unstaged count
    when their second character is not space. -/
def statusCounts : List (List Char) → Nat × Nat
  | [] => (0, 0)
  | line :: rest =>
    let acc := statusCounts rest
    if trimSpace line = [] then acc
    else
      match line with
      | c0 :: c1 :: _ =>
        ((if c0 != ' ' && c0 != '?' then acc.1 + 1 else acc.1),
         (if c1 != ' ' then acc.2 + 1 else acc.2))
      | _ => acc

/-- Pure core of GetStatus applied to the raw porcelain output: the whole
    output is whitespace-trimmed, Clean is emptiness of the trimmed text,
    and the counting loop runs over the lines of the trimmed text. -/
def GetStatus (output : List Char) : Status :=
  let statusText := trimSpace output
  if statusText = [] then { clean := true, stagedFiles := 0, unstagedFiles := 0 }
  else
    let counts := statusCounts (splitOnNL statusText)
    { clean := false, stagedFiles := counts.1, unstagedFiles := counts.2 }

/-- Pure core of GetChanges applied to the raw porcelain output: lines that
    are blank or shorter than three characters are skipped; otherwise the
    first two characters are the status code and the text after the third
    character, whitespace-trimmed, is the file name. -/
def GetChanges (output : List Char) : List Change :=
  (splitOnNL output).filterMap fun line =>
    if trimSpace line = [] ∨ line.length < 3 then none
    else some { file := trimSpace (line.drop 3), status := line.take 2 }

/-- Spec-side counting rule of claim C2 taken literally: lines of the raw
    input whose first character is one of M, A, D, R. -/
def claimMADRStagedCount (output : List Char) : Nat :=
  (splitOnNL output).countP fun l =>
    l.headD ' ' == 'M' || l.headD ' ' == 'A' || l.headD ' ' == 'D' || l.headD ' ' == 'R'

/-- Spec-side counting rule of claim C2's parenthetical taken literally:
    lines of the raw input whose first character is neither space nor
    question mark. -/
def claimNonSpaceQStagedCount (output : List Char) : Nat :=
  (splitOnNL output).countP fun l =>
    l.headD ' ' != ' ' && l.headD ' ' != '?'

/-- Amended staged-line condition: a line of the trimmed input that is
    non-blank, has at least two characters, and whose first character is
    neither space nor question mark. -/
def stagedLineSpec (l : List Char) : Bool :=
  !(trimSpace l).isEmpty && decide (2 ≤ l.length) &&
    l.headD ' ' != ' ' && l.headD ' ' != '?'

/-- Staged count of the per-line loop equals the amended line condition
    counted over the same lines. -/
theorem statusCounts_fst (ls : List (List Char)) :
    (statusCounts ls).1 = ls.countP stagedLineSpec := by
  induction ls with
  | nil => rfl
  | cons l rest ih =>
    rw [List.countP_cons]
    by_cases hb : trimSpace l = []
    · have hp : stagedLineSpec l = false := by
        simp [stagedLineSpec, hb]
      simp [statusCounts, hb, hp, ih]
    · match l with
      | [] => exact absurd rfl hb
      | [c] =>
        have hp : stagedLineSpec [c] = false := by
          simp [stagedLineSpec]
        simp [statusCounts, hb, hp, ih]
      | c0 :: c1 :: tl =>
        have hne : (trimSpace (c0 :: c1 :: tl)).isEmpty = false := by
          cases hE : (trimSpace (c0 :: c1 :: tl)).isEmpty
          · rfl
          · exact absurd (List.isEmpty_iff.mp hE) hb
        have hp : stagedLineSpec (c0 :: c1 :: tl) = (c0 != ' ' && c0 != '?') := by
          simp [stagedLineSpec, hne, Nat.le_add_left]
        cases hc : (c0 != ' ' && c0 != '?') <;>
          simp [statusCounts, hb, hp, hc, ih]

/-- C1: evaluation of the code at the spec's end-to-end scenario input.
    GetStatus on " M file.go\n?? new.txt\n" yields StagedFiles = 1 and
    UnstagedFiles = 1 (the whole-output TrimSpace removes the leading space
    of the first porcelain line before the counting loop runs), not the
    claimed StagedFiles = 0, UnstagedFiles = 1; Clean = false and the two
    GetChanges records with codes " M" and "??" are as claimed. -/
theorem c1_scenario_code_evaluation :
    GetStatus (" M file.go\n?? new.txt\n".data) =
      { clean := false, stagedFiles := 1, unstagedFiles := 1 } ∧
    (GetChanges (" M file.go\n?? new.txt\n".data)).map Change.status =
      [" M".data, "??".data] ∧
    (GetChanges (" M file.go\n?? new.txt\n".data)).map Change.file =
      ["file.go".data, "new.txt".data] := by
  refine ⟨by decide, by decide, by decide⟩

/-- C2 counterexample: on the input " M a\nUU b\n" the code's StagedFiles
    is 2, while the number of input lines whose first character is in
    {M,A,D,R} is 0 and the number of input lines whose first character is
    neither space nor question mark is 1 — the claimed counting rule fails
    under either reading. -/
theorem c2_counterexample :
    (GetStatus (" M a\nUU b\n".data)).stagedFiles = 2 ∧
    claimMADRStagedCount (" M a\nUU b\n".data) = 0 ∧
    claimNonSpaceQStagedCount (" M a\nUU b\n".data) = 1 := by
  refine ⟨by decide, by decide, by decide⟩

/-- C2 (amended): for every porcelain input, Clean is true exactly when the
    whitespace-trimmed input is empty, and StagedFiles equals the number of
    lines of the trimmed input that are non-blank, have at least two
    characters, and whose first character is neither space nor '?'. -/
theorem c2_clean_and_staged_characterization (out : List Char) :
    ((GetStatus out).clean = true ↔ trimSpace out = []) ∧
    (GetStatus out).stagedFiles =
      (splitOnNL (trimSpace out)).countP stagedLineSpec := by
  by_cases h : trimSpace out = []
  · refine ⟨by simp [GetStatus, h], ?_⟩
    rw [h]
    simp [GetStatus, h]
    decide
  · refine ⟨by simp [GetStatus, h], ?_⟩
    simp [GetStatus, h, statusCounts_fst]

/-- C3 counterexample: on the one-character input "M" the parsed Status has
    Clean = false while both file counts are 0 (the line is shorter than
    two characters, so the counting loop skips it), refuting the claimed
    invariant Clean == (StagedFiles == 0 && UnstagedFiles == 0). -/
theorem c3_counterexample :
    ¬ ((GetStatus ("M".data)).clean = true ↔
        ((GetStatus ("M".data)).stagedFiles = 0 ∧
         (GetStatus ("M".data)).unstagedFiles = 0)) := by
  decide

/-- C3 (amended): for every porcelain input, Clean = true implies
    StagedFiles = 0 and UnstagedFiles = 0; the converse direction of the
    claimed invariant does not hold. -/
theorem c3_clean_implies_zero_counts (out : List Char)
    (h : (GetStatus out).clean = true) :
    (GetStatus out).stagedFiles = 0 ∧ (GetStatus out).unstagedFiles = 0 := by
  by_cases ht : trimSpace out = []
  · simp [GetStatus, ht]
  · simp [GetStatus, ht] at h

/-- C3 witness: the amended implication applied at the empty input. -/
theorem c3_clean_implies_zero_counts_witness :
    (GetStatus ("".data)).stagedFiles = 0 ∧
    (GetStatus ("".data)).unstagedFiles = 0 :=
  c3_clean_implies_zero_counts ("".data) (by decide)

/-- C10: GetStatus and GetChanges disagree on which porcelain lines are
    records: on the two-character input "M." the status counts are positive
    while the change list is empty (GetStatus accepts lines of length ≥ 2,
    GetChanges requires length ≥ 3). -/
theorem c10_line_length_disagreement :
    0 < (GetStatus ("M.".data)).stagedFiles +
        (GetStatus ("M.".data)).unstagedFiles ∧
    GetChanges ("M.".data) = [] := by
  refine ⟨by decide, by decide⟩

/-! ## Command executor lock-retry loop (Execute, internal/git/git.go) -/

/-- Observation of one iteration of the Execute loop: whether the
    .git/index.lock marker file exists before spawning, and — for the case
    where the spawn happens — the combined output and success flag of the
    spawned command. -/
structure Attempt where
  lockFilePresent : Bool
  output : List Char
  success : Bool

/-- Result of Execute: either the spawned command's combined output together
    with its success flag (the Go function returns the (output, err) pair
    both on success and on command-specific failure), or the terminal
    lock-contention error produced when the retry cap is exhausted. -/
inductive ExecOutcome where
  | returned (output : List Char) (success : Bool)
  | lockContention
deriving DecidableEq

/-- Lock-marker substring that Execute looks for in failed-spawn output. -/
def indexLockMarker : List Char := "index.lock".data

/-- Loop body of Execute, with fuel the number of remaining attempts out of
    maxRetries: when the lock file is present the iteration skips the spawn
    and retries; when a failed spawn's combined output contains the lock
    marker it retries; otherwise the output and outcome are returned as is.
    The backoff sleeps and the doubling delay are not modelled. -/
def ExecuteAux (env : Nat → Attempt) : Nat → Nat → ExecOutcome
  | _, 0 => .lockContention
  | attempt, fuel + 1 =>
    let a := env attempt
    if a.lockFilePresent then ExecuteAux env (attempt + 1) fuel
    else if !a.success && listContainsSub a.output indexLockMarker then
      ExecuteAux env (attempt + 1) fuel
    else .returned a.output a.success

/-- Execute runs the loop with maxRetries = 3. -/
def Execute (env : Nat → Attempt) : ExecOutcome :=
  ExecuteAux env 0 3

/-- Attempt classified as lock-related: the marker file is present before
    the spawn, or the spawn failed with output containing the marker. -/
def lockRelated (a : Attempt) : Bool :=
  a.lockFilePresent || (!a.success && listContainsSub a.output indexLockMarker)

/-- Lock-related iterations recurse to the next attempt. -/
theorem ExecuteAux_lock_step (env : Nat → Attempt) (attempt fuel : Nat)
    (h : lockRelated (env attempt) = true) :
    ExecuteAux env attempt (fuel + 1) = ExecuteAux env (attempt + 1) fuel := by
  unfold lockRelated at h
  cases hl : (env attempt).lockFilePresent
  · rw [hl] at h
    simp only [Bool.false_or] at h
    simp [ExecuteAux, hl, h]
  · simp [ExecuteAux, hl]

/-- Iterations that are not lock-related return the attempt's output and
    outcome unchanged. -/
theorem ExecuteAux_return_step (env : Nat → Attempt) (attempt fuel : Nat)
    (h : lockRelated (env attempt) = false) :
    ExecuteAux env attempt (fuel + 1) =
      .returned (env attempt).output (env attempt).success := by
  unfold lockRelated at h
  rcases Bool.or_eq_false_iff.mp h with ⟨hl, hrest⟩
  simp [ExecuteAux, hl, hrest]

/-- C6: Execute retries lock-related attempts (lock marker file present, or
    failed spawn whose output contains "index.lock") up to the cap of 3;
    three lock-related attempts yield the terminal lock-contention outcome,
    which is distinct from every returned outcome; a first attempt that
    fails without the lock marker in its output is returned immediately
    with its raw output; and a clean successful attempt after two
    lock-related ones is returned within the cap. -/
theorem c6_execute_lock_retry_policy (env : Nat → Attempt) :
    ((∀ i, i < 3 → lockRelated (env i) = true) →
      Execute env = .lockContention) ∧
    ((env 0).lockFilePresent = false → (env 0).success = false →
      listContainsSub (env 0).output indexLockMarker = false →
      Execute env = .returned (env 0).output false) ∧
    ((∀ i, i < 2 → lockRelated (env i) = true) →
      lockRelated (env 2) = false →
      Execute env = .returned (env 2).output (env 2).success) ∧
    (∀ o b, ExecOutcome.lockContention ≠ ExecOutcome.returned o b) := by
  refine ⟨?_, ?_, ?_, ?_⟩
  · intro h
    rw [Execute, ExecuteAux_lock_step env 0 2 (h 0 (by norm_num)),
      ExecuteAux_lock_step env 1 1 (h 1 (by norm_num)),
      ExecuteAux_lock_step env 2 0 (h 2 (by norm_num))]
    rfl
  · intro hl hs hc
    have hnot : lockRelated (env 0) = false := by
      simp [lockRelated, hl, hs, hc]
    rw [Execute, ExecuteAux_return_step env 0 2 hnot, hs]
  · intro h h2
    rw [Execute, ExecuteAux_lock_step env 0 2 (h 0 (by norm_num)),
      ExecuteAux_lock_step env 1 1 (h 1 (by norm_num)),
      ExecuteAux_return_step env 2 0 h2]
  · intro o b h
    exact ExecOutcome.noConfusion h

/-- C6 witness: on an environment whose three attempts all see the lock
    file, Execute reports lock contention; on an environment whose first
    spawn fails with lock-unrelated output, Execute returns that raw output
    immediately. -/
theorem c6_execute_lock_retry_policy_witness :
    Execute (fun _ => { lockFilePresent := true, output := [], success := false })
      = .lockContention ∧
    Execute (fun _ => { lockFilePresent := false,
                        output := "nothing to commit".data, success := false })
      = .returned ("nothing to commit".data) false :=
  ⟨(c6_execute_lock_retry_policy
      (fun _ => { lockFilePresent := true, output := [], success := false })).1
      (fun _ _ => rfl),
   (c6_execute_lock_retry_policy
      (fun _ => { lockFilePresent := false,
                  output := "nothing to commit".data, success := false })).2.1
      rfl rfl (by decide)⟩

/-! ## Rebase script construction (ExecuteRebase, internal/git/git.go) -/

/-- One entry of a staged interactive-rebase plan. -/
structure RebaseCommit where
  hash : List Char
  message : List Char
  action : List Char
deriving DecidableEq, Repr, Inhabited

/-- Formatting of one rebase-todo line by ExecuteRebase:
    "<action> <hash> <message>", with an empty action replaced by "pick". -/
def todoLine (c : RebaseCommit) : List Char :=
  (if c.action = [] then "pick".data else c.action) ++
    ' ' :: (c.hash ++ ' ' :: c.message)

/-- Downward loop of ExecuteRebase: todoFrom commits (i+1) emits the line
    for plan index i and recurses, mirroring `for i := len(commits)-1;
    i >= 0; i--` appending one line per iteration. -/
def todoFrom (commits : List RebaseCommit) : Nat → List (List Char)
  | 0 => []
  | i + 1 => todoLine (commits.getD i default) :: todoFrom commits i

/-- Lines of the rebase todo file materialized by ExecuteRebase. -/
def rebaseTodoLines (commits : List RebaseCommit) : List (List Char) :=
  todoFrom commits commits.length

/-- Spec-side formatting of one script entry: the action (defaulting to
    "pick" when empty), the hash and the message joined by single spaces. -/
def specScriptLine (c : RebaseCommit) : List Char :=
  List.intercalate [' ']
    [if c.action = [] then "pick".data else c.action, c.hash, c.message]

/-- Source-side and spec-side line formatting agree. -/
theorem todoLine_eq_specScriptLine (c : RebaseCommit) :
    todoLine c = specScriptLine c := by
  simp [todoLine, specScriptLine, List.intercalate]

/-- The downward loop emits the first n plan entries in reversed order. -/
theorem todoFrom_eq_reverse_map (commits : List RebaseCommit) :
    ∀ n, n ≤ commits.length →
      todoFrom commits n = ((commits.take n).reverse).map todoLine := by
  intro n
  induction n with
  | zero => intro _; rfl
  | succ i ih =>
    intro h
    have hi : i < commits.length := Nat.lt_of_succ_le h
    rw [todoFrom, ih (Nat.le_of_lt hi), List.getD_eq_getElem?_getD,
      List.getElem?_eq_getElem hi, Option.getD_some, List.take_succ,
      List.getElem?_eq_getElem hi]
    simp only [Option.toList_some, List.reverse_append,
      List.reverse_singleton, List.singleton_append, List.map_cons]

/-- C7: for every non-empty rebase plan (held newest-first), the
    materialized script lists the plan entries in reversed (oldest-first)
    order, each line formatted "<action> <hash> <message>" with an empty
    action defaulting to "pick". -/
theorem c7_rebase_script_oldest_first (commits : List RebaseCommit)
    (h : commits ≠ []) :
    rebaseTodoLines commits = commits.reverse.map specScriptLine := by
  have := todoFrom_eq_reverse_map commits commits.length (Nat.le_refl _)
  rw [rebaseTodoLines, this, List.take_length]
  exact List.map_congr_left fun c _ => todoLine_eq_specScriptLine c

/-- C7 witness: a three-commit plan, newest-first, with the middle entry's
    action set to "squash" and the oldest entry's action left empty,
    materializes the oldest-first script with the middle line carrying
    "squash" and the empty action defaulted to "pick". -/
theorem c7_rebase_script_oldest_first_witness :
    rebaseTodoLines
      [{ hash := "ccc".data, message := "third".data, action := "pick".data },
       { hash := "bbb".data, message := "second".data, action := "squash".data },
       { hash := "aaa".data, message := "first".data, action := [] }] =
      ["pick aaa first".data, "squash bbb second".data,
       "pick ccc third".data] := by
  rw [c7_rebase_script_oldest_first _ (by decide)]
  decide

/-! ## Rebase-count validation (loadRebaseCommits, helpers.go) -/

/-- Digit-run parser underlying the Atoi model: consumes the remaining
    characters into an accumulator, failing on any non-digit. -/
def parseDigitsAux : List Char → Nat → Option Nat
  | [], acc => some acc
  | c :: cs, acc =>
    if c.isDigit then parseDigitsAux cs (acc * 10 + (c.toNat - '0'.toNat))
    else none

/-- Model of Go strconv.Atoi: an optional sign followed by at least one
    digit; anything else fails.  (Go's ErrRange overflow failure is not
    modelled: huge values are returned as numbers, and every caller-side
    range check rejects them just as the error would.) -/
def goAtoi (s : List Char) : Option Int :=
  match s with
  | [] => none
  | '+' :: rest =>
    if rest = [] then none else (parseDigitsAux rest 0).map Int.ofNat
  | '-' :: rest =>
    if rest = [] then none else (parseDigitsAux rest 0).map fun n => -(n : Int)
  | _ => (parseDigitsAux s 0).map Int.ofNat

/-- Outcome of the validation prefix of loadRebaseCommits: either the input
    is rejected with an inline status message before any subprocess is
    spawned, or the git log subprocess is spawned with the parsed count. -/
inductive RebaseLoadStep where
  | rejected (message : List Char)
  | spawnGitLog (count : Int)
deriving DecidableEq

/-- Validation prefix of loadRebaseCommits: the input is trimmed and parsed
    as an integer; a parse failure or a value outside 1..50 yields only the
    inline status message, otherwise the subprocess step is reached. -/
def loadRebaseCommits (input : List Char) : RebaseLoadStep :=
  let countStr := trimSpace input
  match goAtoi countStr with
  | none => .rejected ("Invalid count (1-50)".data)
  | some count =>
    if count < 1 ∨ count > 50 then .rejected ("Invalid count (1-50)".data)
    else .spawnGitLog count

/-- C8: every rebase-count input that does not parse as an integer in the
    range 1..50 is rejected before any subprocess step, producing exactly
    the inline status message "Invalid count (1-50)". -/
theorem c8_invalid_count_rejected (input : List Char)
    (h : ∀ n : Int, goAtoi (trimSpace input) = some n → n < 1 ∨ n > 50) :
    loadRebaseCommits input = .rejected ("Invalid count (1-50)".data) := by
  cases hp : goAtoi (trimSpace input) with
  | none => simp [loadRebaseCommits, hp]
  | some n =>
    have hr := h n hp
    simp [loadRebaseCommits, hp, hr]

/-- C8 witness: the out-of-range input "51" and the non-numeric input "x"
    are both rejected with the inline message. -/
theorem c8_invalid_count_rejected_witness :
    loadRebaseCommits ("51".data) = .rejected ("Invalid count (1-50)".data) ∧
    loadRebaseCommits ("x".data) = .rejected ("Invalid count (1-50)".data) :=
  ⟨c8_invalid_count_rejected ("51".data) (fun n hn => by
      rw [show goAtoi (trimSpace ("51".data)) = some 51 from rfl] at hn
      cases hn
      right
      decide),
   c8_invalid_count_rejected ("x".data) (fun n hn => by
      rw [show goAtoi (trimSpace ("x".data)) = none from rfl] at hn
      exact Option.noConfusion hn)⟩

/-! ## Interaction state machine (main.go model, key handlers and Update) -/

/-- One local or remote branch as parsed for the branches tab. -/
structure Branch where
  name : List Char
  isCurrent : Bool
  isRemote : Bool
  upstream : List Char
  ahead : Nat
  behind : Nat
deriving DecidableEq, Repr, Inhabited

/-- One history entry. -/
structure Commit where
  hash : List Char
  message : List Char
  author : List Char
  date : List Char
deriving DecidableEq, Repr, Inhabited

/-- One unmerged path shown in the conflicts view. -/
structure ConflictFile where
  path : List Char
  isResolved : Bool
deriving DecidableEq, Repr, Inhabited

/-- One stash-list entry. -/
structure Stash where
  index : Nat
  message : List Char
  date : List Char
  branch : List Char
deriving DecidableEq, Repr

/-- One repository tag. -/
structure Tag where
  name : List Char
  message : List Char
  commit : List Char
  date : List Char
  isAnnotated : Bool
deriving DecidableEq, Repr

/-- One blamed source line. -/
structure BlameLine where
  hash : List Char
  author : List Char
  date : List Char
  lineNum : Nat
  content : List Char
deriving DecidableEq, Repr

/-- Two-branch comparison summary. -/
structure BranchComparison where
  sourceBranch : List Char
  targetBranch : List Char
  aheadCommits : List Commit
  behindCommits : List Commit
  differingFiles : List (List Char)
deriving DecidableEq

/-- External text-input collaborator, modelled by its focus flag and value;
    its Update on a key press is modelled as appending the pressed key. -/
structure TextInput where
  focused : Bool
  value : List Char
deriving DecidableEq, Repr

/-- Commands a key handler or reconciliation step can dispatch (tea.Cmd
    values; the payloads are the arguments the Go closures capture). -/
inductive Cmd where
  | loadFileDiff (file : List Char)
  | toggleStaging (file : List Char)
  | gitAddAll
  | gitReset
  | discardChanges (file : List Char)
  | loadConflicts
  | gitResetLastCommit
  | loadBlame (file : List Char)
  | generateCommitSuggestions
  | switchBranch (name : List Char)
  | createBranch (name : List Char)
  | deleteBranch (name : List Char)
  | compareBranch (name : List Char)
  | blink
  | loadStashList
  | loadTags
  | loadCommitHistory
  | pushChanges
  | fetchChanges
  | pullChanges
  | loadLogCommits (search : List Char)
  | loadCleanFiles
deriving DecidableEq, Repr

/-- Fields of the main.go model used by the embedded handlers and by the
    list-message reconciliation cases of Update.  Tab, mode and
    confirmation strings are Lean Strings; text payloads are Char lists. -/
structure Model where
  tab : String
  toolMode : String
  viewMode : String
  changes : List Change
  branches : List Branch
  commits : List Commit
  conflicts : List ConflictFile
  branchComparison : Option BranchComparison
  stashes : List Stash
  tags : List Tag
  logCommits : List Commit
  blameLines : List BlameLine
  fileCursor : Nat
  fileOffset : Nat
  branchCursor : Nat
  branchOffset : Nat
  toolCursor : Nat
  historyCursor : Nat
  historyOffset : Nat
  conflictCursor : Nat
  undoCursor : Nat
  undoOffset : Nat
  stashCursor : Nat
  stashOffset : Nat
  tagCursor : Nat
  tagOffset : Nat
  logCursor : Nat
  logOffset : Nat
  blameCursor : Nat
  blameOffset : Nat
  scrollOffset : Nat
  height : Nat
  showDiffPreview : Bool
  statusMessage : List Char
  confirmAction : String
  blameFile : List Char
  branchInput : TextInput
  rebaseInput : TextInput
  cloneInput : TextInput
  initInput : TextInput
deriving DecidableEq

/-- Fixed chrome overhead of the layout (main.go). -/
def uiOverhead : Nat := 9

/-- adjustFileScroll: keep the file cursor inside the visible window. -/
def adjustFileScroll (m : Model) : Model :=
  let v0 := m.height - uiOverhead - 7
  let visibleItems := if v0 < 1 then 1 else v0
  let m1 := if m.fileCursor < m.fileOffset then
      { m with fileOffset := m.fileCursor } else m
  if m1.fileCursor ≥ m1.fileOffset + visibleItems then
    { m1 with fileOffset := m1.fileCursor - visibleItems + 1 }
  else m1

/-- adjustBranchScroll: keep the branch cursor inside the visible window. -/
def adjustBranchScroll (m : Model) : Model :=
  let v0 := m.height - uiOverhead - 4
  let visibleItems := if v0 < 1 then 1 else v0
  let m1 := if m.branchCursor < m.branchOffset then
      { m with branchOffset := m.branchCursor } else m
  if m1.branchCursor ≥ m1.branchOffset + visibleItems then
    { m1 with branchOffset := m1.branchCursor - visibleItems + 1 }
  else m1

/-- adjustBlameScroll: keep the blame cursor inside the visible window. -/
def adjustBlameScroll (m : Model) : Model :=
  let v0 := m.height - uiOverhead - 4
  let visibleItems := if v0 < 1 then 1 else v0
  let m1 := if m.blameCursor < m.blameOffset then
      { m with blameOffset := m.blameCursor } else m
  if m1.blameCursor ≥ m1.blameOffset + visibleItems then
    { m1 with blameOffset := m1.blameCursor - visibleItems + 1 }
  else m1

/-- Selected change record of the workspace file list
    (Go m.changes[m.fileCursor], always used under a bounds check). -/
def wsSelectedFile (m : Model) : Change :=
  m.changes.getD m.fileCursor default

/-- Cursor move in the workspace file list: set the cursor, reset the
    scroll, keep the cursor visible, and load the newly selected file's
    diff when the cursor is in range. -/
def wsMoveCursor (m : Model) (c : Nat) : Model × Option Cmd :=
  let m1 := adjustFileScroll { m with fileCursor := c, scrollOffset := 0 }
  if m1.fileCursor < m1.changes.length then
    (m1, some (.loadFileDiff (wsSelectedFile m1).file))
  else (m1, none)

/-- Diff sub-view keys of handleWorkspaceKey. -/
def workspaceDiffKey (m : Model) (key : String) : Model × Option Cmd :=
  if key = "esc" then ({ m with viewMode := "files" }, none)
  else if key = "j" ∨ key = "down" then
    ({ m with scrollOffset := m.scrollOffset + 1 }, none)
  else if key = "k" ∨ key = "up" then
    (if m.scrollOffset > 0 then
      { m with scrollOffset := m.scrollOffset - 1 } else m, none)
  else (m, none)

/-- Blame sub-view keys of handleWorkspaceKey. -/
def workspaceBlameKey (m : Model) (key : String) : Model × Option Cmd :=
  if key = "esc" then
    ({ m with viewMode := "files", blameLines := [] }, none)
  else if key = "j" ∨ key = "down" then
    (if m.blameCursor < m.blameLines.length - 1 then
      adjustBlameScroll { m with blameCursor := m.blameCursor + 1 }
     else m, none)
  else if key = "k" ∨ key = "up" then
    (if m.blameCursor > 0 then
      adjustBlameScroll { m with blameCursor := m.blameCursor - 1 }
     else m, none)
  else (m, none)

/-- Conflicts sub-view keys of handleWorkspaceKey. -/
def workspaceConflictsKey (m : Model) (key : String) : Model × Option Cmd :=
  if key = "esc" then
    ({ m with viewMode := "files", conflicts := [] }, none)
  else if key = "j" ∨ key = "down" then
    (if m.conflictCursor < m.conflicts.length - 1 then
      { m with conflictCursor := m.conflictCursor + 1 } else m, none)
  else if key = "k" ∨ key = "up" then
    (if m.conflictCursor > 0 then
      { m with conflictCursor := m.conflictCursor - 1 } else m, none)
  else if key = "enter" then
    if m.conflictCursor < m.conflicts.length then
      ({ m with viewMode := "diff" },
       some (.loadFileDiff ((m.conflicts.getD m.conflictCursor default).path)))
    else (m, none)
  else (m, none)

/-- handleWorkspaceKey (hooks.go): the workspace tab's key handler, with its
    diff, blame and conflicts sub-views and the default files view carrying
    the discard and reset-last-commit confirmations. -/
def handleWorkspaceKey (m : Model) (key : String) : Model × Option Cmd :=
  if m.viewMode = "diff" then workspaceDiffKey m key
  else if m.viewMode = "blame" then workspaceBlameKey m key
  else if m.viewMode = "conflicts" then workspaceConflictsKey m key
  else
    if key = "j" ∨ key = "down" then
      if m.fileCursor < m.changes.length - 1 then
        wsMoveCursor m (m.fileCursor + 1)
      else (m, none)
    else if key = "k" ∨ key = "up" then
      if m.fileCursor > 0 then
        wsMoveCursor m (m.fileCursor - 1)
      else (m, none)
    else if key = " " ∨ key = "space" then
      if m.fileCursor < m.changes.length then
        (m, some (.toggleStaging (wsSelectedFile m).file))
      else (m, none)
    else if key = "a" then (m, some .gitAddAll)
    else if key = "r" then (m, some .gitReset)
    else if key = "enter" then
      ({ m with viewMode := "diff", scrollOffset := 0 }, none)
    else if key = "b" then
      if m.fileCursor < m.changes.length then
        ({ m with blameFile := (wsSelectedFile m).file, viewMode := "blame" },
         some (.loadBlame ((wsSelectedFile m).file)))
      else (m, none)
    else if key = "d" then
      if m.fileCursor < m.changes.length then
        if m.confirmAction = "" then
          ({ m with
              confirmAction := "discard",
              statusMessage :=
                "Press \x27d\x27 again to confirm discard".data }, none)
        else if m.confirmAction = "discard" then
          ({ m with confirmAction := "" },
           some (.discardChanges ((wsSelectedFile m).file)))
        else (m, none)
      else (m, none)
    else if key = "esc" then
      ({ m with confirmAction := "", statusMessage := [] }, none)
    else if key = "p" then
      ({ m with showDiffPreview := !m.showDiffPreview }, none)
    else if key = "w" then
      (if m.scrollOffset > 0 then
        { m with scrollOffset := m.scrollOffset - 1 } else m, none)
    else if key = "s" then
      ({ m with scrollOffset := m.scrollOffset + 1 }, none)
    else if key = "c" then
      ({ m with viewMode := "conflicts" }, some .loadConflicts)
    else if key = "R" then
      if m.confirmAction = "" then
        ({ m with
            confirmAction := "reset-commit",
            statusMessage :=
              "Press \x27R\x27 again to reset last commit (changes kept)".data },
         none)
      else if m.confirmAction = "reset-commit" then
        ({ m with confirmAction := "" }, some .gitResetLastCommit)
      else (m, none)
    else (m, none)

/-- selectToolMenuItem (hooks.go): enter on a tools-menu row. -/
def selectToolMenuItem (m : Model) : Model × Option Cmd :=
  if m.toolCursor = 0 then
    ({ m with toolMode := "log" }, some (.loadLogCommits []))
  else if m.toolCursor = 1 then
    ({ m with toolMode := "stash" }, some .loadStashList)
  else if m.toolCursor = 2 then
    ({ m with toolMode := "tags" }, some .loadTags)
  else if m.toolCursor = 3 then
    ({ m with toolMode := "history" }, some .loadCommitHistory)
  else if m.toolCursor = 4 then
    ({ m with toolMode := "undo" }, some .loadCommitHistory)
  else if m.toolCursor = 5 then
    ({ m with
        toolMode := "rebase",
        rebaseInput := { m.rebaseInput with focused := true } }, some .blink)
  else if m.toolCursor = 6 then
    if m.confirmAction = "" then
      ({ m with
          confirmAction := "push",
          statusMessage := "Press enter again to push to remote".data }, none)
    else if m.confirmAction = "push" then
      ({ m with confirmAction := "" }, some .pushChanges)
    else (m, none)
  else if m.toolCursor = 7 then (m, some .fetchChanges)
  else if m.toolCursor = 8 then ({ m with toolMode := "hooks" }, none)
  else if m.toolCursor = 9 then
    ({ m with toolMode := "clean" }, some .loadCleanFiles)
  else if m.toolCursor = 10 then
    ({ m with
        toolMode := "clone",
        cloneInput := { m.cloneInput with focused := true } }, some .blink)
  else if m.toolCursor = 11 then
    ({ m with
        toolMode := "init",
        initInput := { m.initInput with focused := true } }, some .blink)
  else (m, none)

/-- handleToolsMenuKey (hooks.go): the tools-menu key handler, carrying the
    push and pull confirmations among the quick keys. -/
def handleToolsMenuKey (m : Model) (key : String) : Model × Option Cmd :=
  if key = "j" ∨ key = "down" then
    (if m.toolCursor < 11 then
      { m with toolCursor := m.toolCursor + 1 } else m, none)
  else if key = "k" ∨ key = "up" then
    (if m.toolCursor > 0 then
      { m with toolCursor := m.toolCursor - 1 } else m, none)
  else if key = "enter" then selectToolMenuItem m
  else if key = "s" then ({ m with toolMode := "stash" }, some .loadStashList)
  else if key = "t" then ({ m with toolMode := "tags" }, some .loadTags)
  else if key = "h" then
    ({ m with toolMode := "history" }, some .loadCommitHistory)
  else if key = "u" then
    ({ m with toolMode := "undo" }, some .loadCommitHistory)
  else if key = "r" then
    ({ m with
        toolMode := "rebase",
        rebaseInput := { m.rebaseInput with focused := true } }, some .blink)
  else if key = "p" then
    if m.confirmAction = "" then
      ({ m with
          confirmAction := "push",
          statusMessage := "Press p again to push to remote".data }, none)
    else if m.confirmAction = "push" then
      ({ m with confirmAction := "" }, some .pushChanges)
    else (m, none)
  else if key = "f" then (m, some .fetchChanges)
  else if key = "l" then
    if m.confirmAction = "" then
      ({ m with
          confirmAction := "pull",
          statusMessage := "Press l again to pull from remote".data }, none)
    else if m.confirmAction = "pull" then
      ({ m with confirmAction := "" }, some .pullChanges)
    else (m, none)
  else if key = "g" then ({ m with toolMode := "hooks" }, none)
  else if key = "o" then
    ({ m with toolMode := "log" }, some (.loadLogCommits []))
  else if key = "c" then
    ({ m with
        toolMode := "clone",
        cloneInput := { m.cloneInput with focused := true } }, some .blink)
  else if key = "i" then
    ({ m with
        toolMode := "init",
        initInput := { m.initInput with focused := true } }, some .blink)
  else if key = "x" then
    ({ m with toolMode := "clean" }, some .loadCleanFiles)
  else (m, none)

/-- handleBranchesKey (hooks.go): the branches tab key handler, with the
    comparison overlay, the new-branch input, and the delete confirmation
    that is only reachable when the selected branch is not current. -/
def handleBranchesKey (m : Model) (key : String) : Model × Option Cmd :=
  if m.branchComparison.isSome then
    if key = "esc" then ({ m with branchComparison := none }, none)
    else (m, none)
  else if m.branchInput.focused then
    if key = "enter" then
      let branchName := trimSpace m.branchInput.value
      if branchName ≠ [] then
        ({ m with branchInput := { focused := false, value := [] } },
         some (.createBranch branchName))
      else (m, none)
    else if key = "esc" then
      ({ m with branchInput := { focused := false, value := [] } }, none)
    else
      ({ m with branchInput :=
          { m.branchInput with value := m.branchInput.value ++ key.data } },
       none)
  else if key = "j" ∨ key = "down" then
    (if m.branchCursor < m.branches.length - 1 then
      adjustBranchScroll { m with branchCursor := m.branchCursor + 1 }
     else m, none)
  else if key = "k" ∨ key = "up" then
    (if m.branchCursor > 0 then
      adjustBranchScroll { m with branchCursor := m.branchCursor - 1 }
     else m, none)
  else if key = "enter" then
    if m.branchCursor < m.branches.length then
      (m, some (.switchBranch ((m.branches.getD m.branchCursor default).name)))
    else (m, none)
  else if key = "n" then
    ({ m with branchInput := { m.branchInput with focused := true } },
     some .blink)
  else if key = "d" then
    if m.branchCursor < m.branches.length then
      let branch := m.branches.getD m.branchCursor default
      if !branch.isCurrent then
        if m.confirmAction = "" then
          ({ m with
              confirmAction := "delete-branch",
              statusMessage := "Press \x27d\x27 to confirm delete \x27".data
                ++ branch.name ++ "\x27".data }, none)
        else if m.confirmAction = "delete-branch" then
          ({ m with confirmAction := "" }, some (.deleteBranch branch.name))
        else (m, none)
      else (m, none)
    else (m, none)
  else if key = "c" then
    if m.branchCursor < m.branches.length then
      (m, some (.compareBranch ((m.branches.getD m.branchCursor default).name)))
    else (m, none)
  else if key = "esc" then
    ({ m with confirmAction := "", statusMessage := [] }, none)
  else (m, none)

/-- Collection-replacing result messages handled by Update. -/
inductive ListMsg where
  | gitChanges (cs : List Change)
  | branches (bs : List Branch)
  | stashList (ss : List Stash)
  | tagList (ts : List Tag)
  | logCommits (cs : List Commit)
  | commits (cs : List Commit)
deriving DecidableEq

/-- List-bearing reconciliation cases of Update (hooks.go): each message
    replaces its collection wholesale; the gitChanges, branches, stashList,
    tagList and logCommits cases clamp the associated cursor to
    max(0, len-1) when it fell off the end; the commits case replaces the
    collection only. -/
def updateListMsg (m : Model) (msg : ListMsg) : Model × List Cmd :=
  match msg with
  | .gitChanges cs =>
    let m1 := { m with changes := cs }
    let m2 := if m1.fileCursor ≥ m1.changes.length then
        { m1 with fileCursor := max 0 (m1.changes.length - 1) } else m1
    let cmds := [Cmd.generateCommitSuggestions]
    if 0 < m2.changes.length ∧ m2.fileCursor < m2.changes.length then
      (m2, cmds ++ [Cmd.loadFileDiff ((m2.changes.getD m2.fileCursor default).file)])
    else (m2, cmds)
  | .branches bs =>
    let m1 := { m with branches := bs }
    (if m1.branchCursor ≥ m1.branches.length then
      { m1 with branchCursor := max 0 (m1.branches.length - 1) } else m1, [])
  | .stashList ss =>
    let m1 := { m with stashes := ss }
    (if m1.stashCursor ≥ m1.stashes.length then
      { m1 with stashCursor := max 0 (m1.stashes.length - 1) } else m1, [])
  | .tagList ts =>
    let m1 := { m with tags := ts }
    (if m1.tagCursor ≥ m1.tags.length then
      { m1 with tagCursor := max 0 (m1.tags.length - 1) } else m1, [])
  | .logCommits cs =>
    let m1 := { m with logCommits := cs }
    (if m1.logCursor ≥ m1.logCommits.length then
      { m1 with logCursor := max 0 (m1.logCommits.length - 1) } else m1, [])
  | .commits cs => ({ m with commits := cs }, [])

/-- Commands dispatched only by a confirmed guarded (destructive or
    remote-affecting) action. -/
def isGuardedOp : Cmd → Bool
  | .discardChanges _ => true
  | .gitResetLastCommit => true
  | .pushChanges => true
  | .pullChanges => true
  | .deleteBranch _ => true
  | _ => false

/-- adjustFileScroll only changes the file offset. -/
@[simp]
theorem adjustFileScroll_confirmAction (m : Model) :
    (adjustFileScroll m).confirmAction = m.confirmAction := by
  simp only [adjustFileScroll]
  split_ifs <;> rfl

/-- adjustBranchScroll only changes the branch offset. -/
@[simp]
theorem adjustBranchScroll_confirmAction (m : Model) :
    (adjustBranchScroll m).confirmAction = m.confirmAction := by
  simp only [adjustBranchScroll]
  split_ifs <;> rfl

/-- adjustBlameScroll only changes the blame offset. -/
@[simp]
theorem adjustBlameScroll_confirmAction (m : Model) :
    (adjustBlameScroll m).confirmAction = m.confirmAction := by
  simp only [adjustBlameScroll]
  split_ifs <;> rfl

/-- Initial state of the model: workspace tab, files view, tools menu, all
    cursors and offsets zero, nothing pending. -/
def emptyModel : Model where
  tab := "workspace"
  toolMode := "menu"
  viewMode := "files"
  changes := []
  branches := []
  commits := []
  conflicts := []
  branchComparison := none
  stashes := []
  tags := []
  logCommits := []
  blameLines := []
  fileCursor := 0
  fileOffset := 0
  branchCursor := 0
  branchOffset := 0
  toolCursor := 0
  historyCursor := 0
  historyOffset := 0
  conflictCursor := 0
  undoCursor := 0
  undoOffset := 0
  stashCursor := 0
  stashOffset := 0
  tagCursor := 0
  tagOffset := 0
  logCursor := 0
  logOffset := 0
  blameCursor := 0
  blameOffset := 0
  scrollOffset := 0
  height := 0
  showDiffPreview := false
  statusMessage := []
  confirmAction := ""
  blameFile := []
  branchInput := { focused := false, value := [] }
  rebaseInput := { focused := false, value := [] }
  cloneInput := { focused := false, value := [] }
  initInput := { focused := false, value := [] }

/-- C9: in every state of the branches tab whose selected branch has
    IsCurrent = true, pressing d leaves the confirmation token exactly as
    it was and never dispatches a branch-deletion command: deleting the
    checked-out branch is unreachable through the UI. -/
theorem c9_delete_current_branch_unreachable (m : Model)
    (h : m.branchCursor < m.branches.length)
    (hc : (m.branches.getD m.branchCursor default).isCurrent = true) :
    (handleBranchesKey m "d").1.confirmAction = m.confirmAction ∧
    ∀ name, (handleBranchesKey m "d").2 ≠ some (Cmd.deleteBranch name) := by
  by_cases h1 : m.branchComparison.isSome
  · simp [handleBranchesKey, h1]
  · by_cases h2 : m.branchInput.focused
    · simp [handleBranchesKey, h1, h2]
    · have hc2 : (m.branches.getD m.branchCursor default).isCurrent = true := hc
      simp only [List.getD_eq_getElem?_getD, List.getElem?_eq_getElem h,
        Option.getD_some] at hc2
      simp [handleBranchesKey, h1, h2, h, hc2]

/-- Model with the current branch selected on the branches tab. -/
def witnessModelC9 : Model :=
  { emptyModel with
      branches := [{ name := "main".data, isCurrent := true, isRemote := false,
                     upstream := [], ahead := 0, behind := 0 }] }

/-- C9 witness: with the current branch "main" selected, pressing d leaves
    the token untouched and dispatches no deletion. -/
theorem c9_delete_current_branch_unreachable_witness :
    (handleBranchesKey witnessModelC9 "d").1.confirmAction =
      witnessModelC9.confirmAction ∧
    (handleBranchesKey witnessModelC9 "d").2 ≠
      some (Cmd.deleteBranch ("feature".data)) :=
  ⟨(c9_delete_current_branch_unreachable witnessModelC9 (by decide) (by decide)).1,
   (c9_delete_current_branch_unreachable witnessModelC9 (by decide) (by decide)).2
     ("feature".data)⟩

/-- C5 (amended): branch, stash, tag, log-commit and change reconciliation
    clamp their cursor to min(cursor, max(0, N-1)) where N is the new list
    length, while the commit-history message (commitsMsg, feeding the undo
    and history views) replaces the collection without touching the undo or
    history cursor. -/
theorem c5_cursor_clamping (m : Model) :
    (∀ cs : List Change,
      (updateListMsg m (ListMsg.gitChanges cs)).1.fileCursor =
        min m.fileCursor (max 0 (cs.length - 1))) ∧
    (∀ bs : List Branch,
      (updateListMsg m (ListMsg.branches bs)).1.branchCursor =
        min m.branchCursor (max 0 (bs.length - 1))) ∧
    (∀ ss : List Stash,
      (updateListMsg m (ListMsg.stashList ss)).1.stashCursor =
        min m.stashCursor (max 0 (ss.length - 1))) ∧
    (∀ ts : List Tag,
      (updateListMsg m (ListMsg.tagList ts)).1.tagCursor =
        min m.tagCursor (max 0 (ts.length - 1))) ∧
    (∀ cs : List Commit,
      (updateListMsg m (ListMsg.logCommits cs)).1.logCursor =
        min m.logCursor (max 0 (cs.length - 1))) ∧
    (∀ cs : List Commit,
      (updateListMsg m (ListMsg.commits cs)).1.undoCursor = m.undoCursor ∧
      (updateListMsg m (ListMsg.commits cs)).1.historyCursor = m.historyCursor) := by
  refine ⟨?_, ?_, ?_, ?_, ?_, ?_⟩ <;> intro ls <;>
    simp only [updateListMsg] <;> (try split_ifs) <;> simp_all <;> omega

/-- A history entry used to populate concrete models. -/
def dummyCommit : Commit :=
  { hash := "abcd".data, message := "msg".data,
    author := "au".data, date := "now".data }

/-- Model whose undo view points at commit index 3 of a four-entry list. -/
def counterexampleModelC5 : Model :=
  { emptyModel with
      undoCursor := 3
      historyCursor := 2
      commits := [dummyCommit, dummyCommit, dummyCommit, dummyCommit] }

/-- C5 counterexample: shrinking the commit-history list to one entry via
    commitsMsg leaves undoCursor at 3, not at the claimed max(0, 1-1) = 0:
    the commit-history reconciliation performs no clamping. -/
theorem c5_counterexample :
    (updateListMsg counterexampleModelC5
      (ListMsg.commits [dummyCommit])).1.undoCursor = 3 ∧
    (updateListMsg counterexampleModelC5
      (ListMsg.commits [dummyCommit])).1.undoCursor ≠
      max 0 (([dummyCommit] : List Commit).length - 1) := by
  refine ⟨rfl, by decide⟩



/-- wsMoveCursor leaves the confirmation token unchanged. -/
theorem wsMoveCursor_confirmAction (m : Model) (c : Nat) :
    (wsMoveCursor m c).1.confirmAction = m.confirmAction := by
  simp only [wsMoveCursor]
  split_ifs <;> exact (adjustFileScroll_confirmAction _).trans rfl

/-- wsMoveCursor dispatches at most a diff load, never a guarded command. -/
theorem wsMoveCursor_cmd_unguarded (m : Model) (c : Nat) :
    ∀ c2, (wsMoveCursor m c).2 = some c2 → isGuardedOp c2 = false := by
  simp only [wsMoveCursor]
  split_ifs <;> intro c2 hcc <;> first
    | (cases hcc; rfl)
    | cases hcc

/-- Menu selection with a pending token that is not a cursor-6 push leaves
    the token unchanged and dispatches no guarded command. -/
theorem selectToolMenuItem_other (m : Model) (hc : m.confirmAction ≠ "")
    (hne : ¬(m.toolCursor = 6 ∧ m.confirmAction = "push")) :
    (selectToolMenuItem m).1.confirmAction = m.confirmAction ∧
    ∀ c, (selectToolMenuItem m).2 = some c → isGuardedOp c = false := by
  unfold selectToolMenuItem
  by_cases t0 : m.toolCursor = 0
  · rw [if_pos t0]
    exact ⟨rfl, fun c hcc => by cases hcc; rfl⟩
  rw [if_neg t0]
  by_cases t1 : m.toolCursor = 1
  · rw [if_pos t1]
    exact ⟨rfl, fun c hcc => by cases hcc; rfl⟩
  rw [if_neg t1]
  by_cases t2 : m.toolCursor = 2
  · rw [if_pos t2]
    exact ⟨rfl, fun c hcc => by cases hcc; rfl⟩
  rw [if_neg t2]
  by_cases t3 : m.toolCursor = 3
  · rw [if_pos t3]
    exact ⟨rfl, fun c hcc => by cases hcc; rfl⟩
  rw [if_neg t3]
  by_cases t4 : m.toolCursor = 4
  · rw [if_pos t4]
    exact ⟨rfl, fun c hcc => by cases hcc; rfl⟩
  rw [if_neg t4]
  by_cases t5 : m.toolCursor = 5
  · rw [if_pos t5]
    exact ⟨rfl, fun c hcc => by cases hcc; rfl⟩
  rw [if_neg t5]
  by_cases t6 : m.toolCursor = 6
  · rw [if_pos t6]
    have hnp : ¬(m.confirmAction = "push") :=
      fun hh => hne ⟨t6, hh⟩
    rw [if_neg hc, if_neg hnp]
    exact ⟨rfl, fun c hcc => by cases hcc⟩
  rw [if_neg t6]
  by_cases t7 : m.toolCursor = 7
  · rw [if_pos t7]
    exact ⟨rfl, fun c hcc => by cases hcc; rfl⟩
  rw [if_neg t7]
  by_cases t8 : m.toolCursor = 8
  · rw [if_pos t8]
    exact ⟨rfl, fun c hcc => by cases hcc⟩
  rw [if_neg t8]
  by_cases t9 : m.toolCursor = 9
  · rw [if_pos t9]
    exact ⟨rfl, fun c hcc => by cases hcc; rfl⟩
  rw [if_neg t9]
  by_cases t10 : m.toolCursor = 10
  · rw [if_pos t10]
    exact ⟨rfl, fun c hcc => by cases hcc; rfl⟩
  rw [if_neg t10]
  by_cases t11 : m.toolCursor = 11
  · rw [if_pos t11]
    exact ⟨rfl, fun c hcc => by cases hcc; rfl⟩
  rw [if_neg t11]
  exact ⟨rfl, fun c hcc => by cases hcc⟩

set_option maxHeartbeats 4000000 in
/-- C4 (amended): confirmation protocol of the workspace and tools-menu
    handlers.  For the guarded actions (discard and reset-last-commit in
    the workspace files view; push, pull and push-via-enter-on-item-6 in
    the tools menu): a first invocation with no pending token sets a
    non-empty token and dispatches nothing; a second identical invocation
    dispatches exactly one guarded Operation Command and clears the token;
    escape in the workspace files view clears the token without
    dispatching; and while a token is set, any key other than the matching
    second press leaves the token unchanged and never dispatches a guarded
    Operation Command (the original claim that a different action or escape
    clears the token in both handlers fails, see the counterexample). -/
theorem c4_confirmation_protocol (m : Model) :
    (m.viewMode ≠ "diff" → m.viewMode ≠ "blame" → m.viewMode ≠ "conflicts" →
      m.fileCursor < m.changes.length → m.confirmAction = "" →
      (handleWorkspaceKey m "d").1.confirmAction = "discard" ∧
      (handleWorkspaceKey m "d").2 = none) ∧
    (m.viewMode ≠ "diff" → m.viewMode ≠ "blame" → m.viewMode ≠ "conflicts" →
      m.fileCursor < m.changes.length → m.confirmAction = "discard" →
      (handleWorkspaceKey m "d").1.confirmAction = "" ∧
      (handleWorkspaceKey m "d").2 =
        some (Cmd.discardChanges ((wsSelectedFile m).file))) ∧
    (m.viewMode ≠ "diff" → m.viewMode ≠ "blame" → m.viewMode ≠ "conflicts" →
      m.confirmAction = "" →
      (handleWorkspaceKey m "R").1.confirmAction = "reset-commit" ∧
      (handleWorkspaceKey m "R").2 = none) ∧
    (m.viewMode ≠ "diff" → m.viewMode ≠ "blame" → m.viewMode ≠ "conflicts" →
      m.confirmAction = "reset-commit" →
      (handleWorkspaceKey m "R").1.confirmAction = "" ∧
      (handleWorkspaceKey m "R").2 = some Cmd.gitResetLastCommit) ∧
    (m.confirmAction = "" →
      (handleToolsMenuKey m "p").1.confirmAction = "push" ∧
      (handleToolsMenuKey m "p").2 = none) ∧
    (m.confirmAction = "push" →
      (handleToolsMenuKey m "p").1.confirmAction = "" ∧
      (handleToolsMenuKey m "p").2 = some Cmd.pushChanges) ∧
    (m.confirmAction = "" →
      (handleToolsMenuKey m "l").1.confirmAction = "pull" ∧
      (handleToolsMenuKey m "l").2 = none) ∧
    (m.confirmAction = "pull" →
      (handleToolsMenuKey m "l").1.confirmAction = "" ∧
      (handleToolsMenuKey m "l").2 = some Cmd.pullChanges) ∧
    (m.toolCursor = 6 → m.confirmAction = "" →
      (handleToolsMenuKey m "enter").1.confirmAction = "push" ∧
      (handleToolsMenuKey m "enter").2 = none) ∧
    (m.toolCursor = 6 → m.confirmAction = "push" →
      (handleToolsMenuKey m "enter").1.confirmAction = "" ∧
      (handleToolsMenuKey m "enter").2 = some Cmd.pushChanges) ∧
    (m.viewMode ≠ "diff" → m.viewMode ≠ "blame" → m.viewMode ≠ "conflicts" →
      (handleWorkspaceKey m "esc").1.confirmAction = "" ∧
      (handleWorkspaceKey m "esc").2 = none) ∧
    (∀ key, m.viewMode ≠ "diff" → m.viewMode ≠ "blame" →
      m.viewMode ≠ "conflicts" → m.confirmAction ≠ "" → key ≠ "esc" →
      ¬(key = "d" ∧ m.confirmAction = "discard") →
      ¬(key = "R" ∧ m.confirmAction = "reset-commit") →
      (handleWorkspaceKey m key).1.confirmAction = m.confirmAction ∧
      ∀ c, (handleWorkspaceKey m key).2 = some c → isGuardedOp c = false) ∧
    (∀ key, m.confirmAction ≠ "" →
      ¬(key = "p" ∧ m.confirmAction = "push") →
      ¬(key = "l" ∧ m.confirmAction = "pull") →
      ¬(key = "enter" ∧ m.toolCursor = 6 ∧ m.confirmAction = "push") →
      (handleToolsMenuKey m key).1.confirmAction = m.confirmAction ∧
      ∀ c, (handleToolsMenuKey m key).2 = some c → isGuardedOp c = false) := by
  refine ⟨?_, ?_, ?_, ?_, ?_, ?_, ?_, ?_, ?_, ?_, ?_, ?_, ?_⟩
  · intro h1 h2 h3 h4 h5
    unfold handleWorkspaceKey
    rw [if_neg h1, if_neg h2, if_neg h3]
    rw [if_neg (show ¬(("d":String) = "j" ∨ ("d":String) = "down") by decide)]
    rw [if_neg (show ¬(("d":String) = "k" ∨ ("d":String) = "up") by decide)]
    rw [if_neg (show ¬(("d":String) = " " ∨ ("d":String) = "space") by decide)]
    rw [if_neg (show ¬("d":String) = "a" by decide)]
    rw [if_neg (show ¬("d":String) = "r" by decide)]
    rw [if_neg (show ¬("d":String) = "enter" by decide)]
    rw [if_neg (show ¬("d":String) = "b" by decide)]
    rw [if_pos (show ("d":String) = "d" by rfl)]
    rw [if_pos h4, if_pos h5]
    exact ⟨rfl, rfl⟩
  · intro h1 h2 h3 h4 h5
    have hne : ¬(m.confirmAction = "") := by rw [h5]; decide
    unfold handleWorkspaceKey
    rw [if_neg h1, if_neg h2, if_neg h3]
    rw [if_neg (show ¬(("d":String) = "j" ∨ ("d":String) = "down") by decide)]
    rw [if_neg (show ¬(("d":String) = "k" ∨ ("d":String) = "up") by decide)]
    rw [if_neg (show ¬(("d":String) = " " ∨ ("d":String) = "space") by decide)]
    rw [if_neg (show ¬("d":String) = "a" by decide)]
    rw [if_neg (show ¬("d":String) = "r" by decide)]
    rw [if_neg (show ¬("d":String) = "enter" by decide)]
    rw [if_neg (show ¬("d":String) = "b" by decide)]
    rw [if_pos (show ("d":String) = "d" by rfl)]
    rw [if_pos h4, if_neg hne, if_pos h5]
    exact ⟨rfl, rfl⟩
  · intro h1 h2 h3 h5
    unfold handleWorkspaceKey
    rw [if_neg h1, if_neg h2, if_neg h3]
    rw [if_neg (show ¬(("R":String) = "j" ∨ ("R":String) = "down") by decide)]
    rw [if_neg (show ¬(("R":String) = "k" ∨ ("R":String) = "up") by decide)]
    rw [if_neg (show ¬(("R":String) = " " ∨ ("R":String) = "space") by decide)]
    rw [if_neg (show ¬("R":String) = "a" by decide)]
    rw [if_neg (show ¬("R":String) = "r" by decide)]
    rw [if_neg (show ¬("R":String) = "enter" by decide)]
    rw [if_neg (show ¬("R":String) = "b" by decide)]
    rw [if_neg (show ¬("R":String) = "d" by decide)]
    rw [if_neg (show ¬("R":String) = "esc" by decide)]
    rw [if_neg (show ¬("R":String) = "p" by decide)]
    rw [if_neg (show ¬("R":String) = "w" by decide)]
    rw [if_neg (show ¬("R":String) = "s" by decide)]
    rw [if_neg (show ¬("R":String) = "c" by decide)]
    rw [if_pos (show ("R":String) = "R" by rfl)]
    rw [if_pos h5]
    exact ⟨rfl, rfl⟩
  · intro h1 h2 h3 h5
    have hne : ¬(m.confirmAction = "") := by rw [h5]; decide
    unfold handleWorkspaceKey
    rw [if_neg h1, if_neg h2, if_neg h3]
    rw [if_neg (show ¬(("R":String) = "j" ∨ ("R":String) = "down") by decide)]
    rw [if_neg (show ¬(("R":String) = "k" ∨ ("R":String) = "up") by decide)]
    rw [if_neg (show ¬(("R":String) = " " ∨ ("R":String) = "space") by decide)]
    rw [if_neg (show ¬("R":String) = "a" by decide)]
    rw [if_neg (show ¬("R":String) = "r" by decide)]
    rw [if_neg (show ¬("R":String) = "enter" by decide)]
    rw [if_neg (show ¬("R":String) = "b" by decide)]
    rw [if_neg (show ¬("R":String) = "d" by decide)]
    rw [if_neg (show ¬("R":String) = "esc" by decide)]
    rw [if_neg (show ¬("R":String) = "p" by decide)]
    rw [if_neg (show ¬("R":String) = "w" by decide)]
    rw [if_neg (show ¬("R":String) = "s" by decide)]
    rw [if_neg (show ¬("R":String) = "c" by decide)]
    rw [if_pos (show ("R":String) = "R" by rfl)]
    rw [if_neg hne, if_pos h5]
    exact ⟨rfl, rfl⟩
  · intro h5
    unfold handleToolsMenuKey
    rw [if_neg (show ¬(("p":String) = "j" ∨ ("p":String) = "down") by decide)]
    rw [if_neg (show ¬(("p":String) = "k" ∨ ("p":String) = "up") by decide)]
    rw [if_neg (show ¬("p":String) = "enter" by decide)]
    rw [if_neg (show ¬("p":String) = "s" by decide)]
    rw [if_neg (show ¬("p":String) = "t" by decide)]
    rw [if_neg (show ¬("p":String) = "h" by decide)]
    rw [if_neg (show ¬("p":String) = "u" by decide)]
    rw [if_neg (show ¬("p":String) = "r" by decide)]
    rw [if_pos (show ("p":String) = "p" by rfl)]
    rw [if_pos h5]
    exact ⟨rfl, rfl⟩
  · intro h5
    have hne : ¬(m.confirmAction = "") := by rw [h5]; decide
    unfold handleToolsMenuKey
    rw [if_neg (show ¬(("p":String) = "j" ∨ ("p":String) = "down") by decide)]
    rw [if_neg (show ¬(("p":String) = "k" ∨ ("p":String) = "up") by decide)]
    rw [if_neg (show ¬("p":String) = "enter" by decide)]
    rw [if_neg (show ¬("p":String) = "s" by decide)]
    rw [if_neg (show ¬("p":String) = "t" by decide)]
    rw [if_neg (show ¬("p":String) = "h" by decide)]
    rw [if_neg (show ¬("p":String) = "u" by decide)]
    rw [if_neg (show ¬("p":String) = "r" by decide)]
    rw [if_pos (show ("p":String) = "p" by rfl)]
    rw [if_neg hne, if_pos h5]
    exact ⟨rfl, rfl⟩
  · intro h5
    unfold handleToolsMenuKey
    rw [if_neg (show ¬(("l":String) = "j" ∨ ("l":String) = "down") by decide)]
    rw [if_neg (show ¬(("l":String) = "k" ∨ ("l":String) = "up") by decide)]
    rw [if_neg (show ¬("l":String) = "enter" by decide)]
    rw [if_neg (show ¬("l":String) = "s" by decide)]
    rw [if_neg (show ¬("l":String) = "t" by decide)]
    rw [if_neg (show ¬("l":String) = "h" by decide)]
    rw [if_neg (show ¬("l":String) = "u" by decide)]
    rw [if_neg (show ¬("l":String) = "r" by decide)]
    rw [if_neg (show ¬("l":String) = "p" by decide)]
    rw [if_neg (show ¬("l":String) = "f" by decide)]
    rw [if_pos (show ("l":String) = "l" by rfl)]
    rw [if_pos h5]
    exact ⟨rfl, rfl⟩
  · intro h5
    have hne : ¬(m.confirmAction = "") := by rw [h5]; decide
    unfold handleToolsMenuKey
    rw [if_neg (show ¬(("l":String) = "j" ∨ ("l":String) = "down") by decide)]
    rw [if_neg (show ¬(("l":String) = "k" ∨ ("l":String) = "up") by decide)]
    rw [if_neg (show ¬("l":String) = "enter" by decide)]
    rw [if_neg (show ¬("l":String) = "s" by decide)]
    rw [if_neg (show ¬("l":String) = "t" by decide)]
    rw [if_neg (show ¬("l":String) = "h" by decide)]
    rw [if_neg (show ¬("l":String) = "u" by decide)]
    rw [if_neg (show ¬("l":String) = "r" by decide)]
    rw [if_neg (show ¬("l":String) = "p" by decide)]
    rw [if_neg (show ¬("l":String) = "f" by decide)]
    rw [if_pos (show ("l":String) = "l" by rfl)]
    rw [if_neg hne, if_pos h5]
    exact ⟨rfl, rfl⟩
  · intro h6 h5
    unfold handleToolsMenuKey selectToolMenuItem
    rw [if_neg (show ¬(("enter":String) = "j" ∨ ("enter":String) = "down") by decide)]
    rw [if_neg (show ¬(("enter":String) = "k" ∨ ("enter":String) = "up") by decide)]
    rw [if_pos (show ("enter":String) = "enter" by rfl)]
    rw [if_neg (show ¬(m.toolCursor = 0) by rw [h6]; decide)]
    rw [if_neg (show ¬(m.toolCursor = 1) by rw [h6]; decide)]
    rw [if_neg (show ¬(m.toolCursor = 2) by rw [h6]; decide)]
    rw [if_neg (show ¬(m.toolCursor = 3) by rw [h6]; decide)]
    rw [if_neg (show ¬(m.toolCursor = 4) by rw [h6]; decide)]
    rw [if_neg (show ¬(m.toolCursor = 5) by rw [h6]; decide)]
    rw [if_pos h6, if_pos h5]
    exact ⟨rfl, rfl⟩
  · intro h6 h5
    have hne : ¬(m.confirmAction = "") := by rw [h5]; decide
    unfold handleToolsMenuKey selectToolMenuItem
    rw [if_neg (show ¬(("enter":String) = "j" ∨ ("enter":String) = "down") by decide)]
    rw [if_neg (show ¬(("enter":String) = "k" ∨ ("enter":String) = "up") by decide)]
    rw [if_pos (show ("enter":String) = "enter" by rfl)]
    rw [if_neg (show ¬(m.toolCursor = 0) by rw [h6]; decide)]
    rw [if_neg (show ¬(m.toolCursor = 1) by rw [h6]; decide)]
    rw [if_neg (show ¬(m.toolCursor = 2) by rw [h6]; decide)]
    rw [if_neg (show ¬(m.toolCursor = 3) by rw [h6]; decide)]
    rw [if_neg (show ¬(m.toolCursor = 4) by rw [h6]; decide)]
    rw [if_neg (show ¬(m.toolCursor = 5) by rw [h6]; decide)]
    rw [if_pos h6, if_neg hne, if_pos h5]
    exact ⟨rfl, rfl⟩
  · intro h1 h2 h3
    unfold handleWorkspaceKey
    rw [if_neg h1, if_neg h2, if_neg h3]
    rw [if_neg (show ¬(("esc":String) = "j" ∨ ("esc":String) = "down") by decide)]
    rw [if_neg (show ¬(("esc":String) = "k" ∨ ("esc":String) = "up") by decide)]
    rw [if_neg (show ¬(("esc":String) = " " ∨ ("esc":String) = "space") by decide)]
    rw [if_neg (show ¬("esc":String) = "a" by decide)]
    rw [if_neg (show ¬("esc":String) = "r" by decide)]
    rw [if_neg (show ¬("esc":String) = "enter" by decide)]
    rw [if_neg (show ¬("esc":String) = "b" by decide)]
    rw [if_neg (show ¬("esc":String) = "d" by decide)]
    rw [if_pos (show ("esc":String) = "esc" by rfl)]
    exact ⟨rfl, rfl⟩
  · intro key h1 h2 h3 hc hke hkd hkR
    unfold handleWorkspaceKey
    rw [if_neg h1, if_neg h2, if_neg h3]
    by_cases k1 : key = "j" ∨ key = "down"
    · rw [if_pos k1]
      by_cases hm : m.fileCursor < m.changes.length - 1
      · rw [if_pos hm]
        exact ⟨wsMoveCursor_confirmAction _ _, wsMoveCursor_cmd_unguarded _ _⟩
      · rw [if_neg hm]
        exact ⟨rfl, fun c hcc => by cases hcc⟩
    rw [if_neg k1]
    by_cases k2 : key = "k" ∨ key = "up"
    · rw [if_pos k2]
      by_cases hm : m.fileCursor > 0
      · rw [if_pos hm]
        exact ⟨wsMoveCursor_confirmAction _ _, wsMoveCursor_cmd_unguarded _ _⟩
      · rw [if_neg hm]
        exact ⟨rfl, fun c hcc => by cases hcc⟩
    rw [if_neg k2]
    by_cases k3 : key = " " ∨ key = "space"
    · rw [if_pos k3]
      by_cases hm : m.fileCursor < m.changes.length
      · rw [if_pos hm]
        exact ⟨rfl, fun c hcc => by cases hcc; rfl⟩
      · rw [if_neg hm]
        exact ⟨rfl, fun c hcc => by cases hcc⟩
    rw [if_neg k3]
    by_cases k4 : key = "a"
    · rw [if_pos k4]
      exact ⟨rfl, fun c hcc => by cases hcc; rfl⟩
    rw [if_neg k4]
    by_cases k5 : key = "r"
    · rw [if_pos k5]
      exact ⟨rfl, fun c hcc => by cases hcc; rfl⟩
    rw [if_neg k5]
    by_cases k6 : key = "enter"
    · rw [if_pos k6]
      exact ⟨rfl, fun c hcc => by cases hcc⟩
    rw [if_neg k6]
    by_cases k7 : key = "b"
    · rw [if_pos k7]
      by_cases hm : m.fileCursor < m.changes.length
      · rw [if_pos hm]
        exact ⟨rfl, fun c hcc => by cases hcc; rfl⟩
      · rw [if_neg hm]
        exact ⟨rfl, fun c hcc => by cases hcc⟩
    rw [if_neg k7]
    by_cases k8 : key = "d"
    · rw [if_pos k8]
      have hnd : ¬(m.confirmAction = "discard") := fun hh => hkd ⟨k8, hh⟩
      by_cases hm : m.fileCursor < m.changes.length
      · rw [if_pos hm, if_neg hc, if_neg hnd]
        exact ⟨rfl, fun c hcc => by cases hcc⟩
      · rw [if_neg hm]
        exact ⟨rfl, fun c hcc => by cases hcc⟩
    rw [if_neg k8]
    by_cases k9 : key = "esc"
    · exact absurd k9 hke
    rw [if_neg k9]
    by_cases k10 : key = "p"
    · rw [if_pos k10]
      exact ⟨rfl, fun c hcc => by cases hcc⟩
    rw [if_neg k10]
    by_cases k11 : key = "w"
    · rw [if_pos k11]
      exact ⟨by split_ifs <;> rfl, fun c hcc => by cases hcc⟩
    rw [if_neg k11]
    by_cases k12 : key = "s"
    · rw [if_pos k12]
      exact ⟨rfl, fun c hcc => by cases hcc⟩
    rw [if_neg k12]
    by_cases k13 : key = "c"
    · rw [if_pos k13]
      exact ⟨rfl, fun c hcc => by cases hcc; rfl⟩
    rw [if_neg k13]
    by_cases k14 : key = "R"
    · rw [if_pos k14]
      have hnR : ¬(m.confirmAction = "reset-commit") := fun hh => hkR ⟨k14, hh⟩
      rw [if_neg hc, if_neg hnR]
      exact ⟨rfl, fun c hcc => by cases hcc⟩
    rw [if_neg k14]
    exact ⟨rfl, fun c hcc => by cases hcc⟩
  · intro key hc hkp hkl hkenter
    unfold handleToolsMenuKey
    by_cases k1 : key = "j" ∨ key = "down"
    · rw [if_pos k1]
      exact ⟨by split_ifs <;> rfl, fun c hcc => by cases hcc⟩
    rw [if_neg k1]
    by_cases k2 : key = "k" ∨ key = "up"
    · rw [if_pos k2]
      exact ⟨by split_ifs <;> rfl, fun c hcc => by cases hcc⟩
    rw [if_neg k2]
    by_cases k3 : key = "enter"
    · rw [if_pos k3]
      exact selectToolMenuItem_other m hc
        (fun hh => hkenter ⟨k3, hh.1, hh.2⟩)
    rw [if_neg k3]
    by_cases k4 : key = "s"
    · rw [if_pos k4]
      exact ⟨rfl, fun c hcc => by cases hcc; rfl⟩
    rw [if_neg k4]
    by_cases k5 : key = "t"
    · rw [if_pos k5]
      exact ⟨rfl, fun c hcc => by cases hcc; rfl⟩
    rw [if_neg k5]
    by_cases k6 : key = "h"
    · rw [if_pos k6]
      exact ⟨rfl, fun c hcc => by cases hcc; rfl⟩
    rw [if_neg k6]
    by_cases k7 : key = "u"
    · rw [if_pos k7]
      exact ⟨rfl, fun c hcc => by cases hcc; rfl⟩
    rw [if_neg k7]
    by_cases k8 : key = "r"
    · rw [if_pos k8]
      exact ⟨rfl, fun c hcc => by cases hcc; rfl⟩
    rw [if_neg k8]
    by_cases k9 : key = "p"
    · rw [if_pos k9]
      have hnp : ¬(m.confirmAction = "push") := fun hh => hkp ⟨k9, hh⟩
      rw [if_neg hc, if_neg hnp]
      exact ⟨rfl, fun c hcc => by cases hcc⟩
    rw [if_neg k9]
    by_cases k10 : key = "f"
    · rw [if_pos k10]
      exact ⟨rfl, fun c hcc => by cases hcc; rfl⟩
    rw [if_neg k10]
    by_cases k11 : key = "l"
    · rw [if_pos k11]
      have hnl : ¬(m.confirmAction = "pull") := fun hh => hkl ⟨k11, hh⟩
      rw [if_neg hc, if_neg hnl]
      exact ⟨rfl, fun c hcc => by cases hcc⟩
    rw [if_neg k11]
    by_cases k12 : key = "g"
    · rw [if_pos k12]
      exact ⟨rfl, fun c hcc => by cases hcc⟩
    rw [if_neg k12]
    by_cases k13 : key = "o"
    · rw [if_pos k13]
      exact ⟨rfl, fun c hcc => by cases hcc; rfl⟩
    rw [if_neg k13]
    by_cases k14 : key = "c"
    · rw [if_pos k14]
      exact ⟨rfl, fun c hcc => by cases hcc; rfl⟩
    rw [if_neg k14]
    by_cases k15 : key = "i"
    · rw [if_pos k15]
      exact ⟨rfl, fun c hcc => by cases hcc; rfl⟩
    rw [if_neg k15]
    by_cases k16 : key = "x"
    · rw [if_pos k16]
      exact ⟨rfl, fun c hcc => by cases hcc; rfl⟩
    rw [if_neg k16]
    exact ⟨rfl, fun c hcc => by cases hcc⟩

/-- Tools-menu state with a pending push confirmation. -/
def counterexampleModelC4 : Model :=
  { emptyModel with confirmAction := "push" }

/-- C4 counterexample: with the push token pending in the tools menu,
    pressing l — a different guarded action — leaves the token set
    (and dispatches nothing), contradicting the claim that invoking a
    different action while a token is set clears the token. -/
theorem c4_counterexample :
    (handleToolsMenuKey counterexampleModelC4 "l").1.confirmAction = "push" ∧
    (handleToolsMenuKey counterexampleModelC4 "l").2 = none := by
  exact ⟨rfl, rfl⟩

/-- Workspace state with one modified file and nothing pending. -/
def witnessModelC4 : Model :=
  { emptyModel with changes := [{ file := "a.go".data, status := " M".data }] }

/-- Workspace state with one modified file and the discard token pending. -/
def witnessModelC4b : Model :=
  { witnessModelC4 with confirmAction := "discard" }

/-- Tools-menu state with a pending pull confirmation. -/
def witnessModelC4c : Model :=
  { emptyModel with confirmAction := "pull" }

/-- C4 witness: a first press of d arms the discard token without
    dispatching; a second press dispatches exactly the discard command and
    clears the token; a second press of l dispatches exactly the pull
    command and clears the token. -/
theorem c4_confirmation_protocol_witness :
    ((handleWorkspaceKey witnessModelC4 "d").1.confirmAction = "discard" ∧
     (handleWorkspaceKey witnessModelC4 "d").2 = none) ∧
    ((handleWorkspaceKey witnessModelC4b "d").1.confirmAction = "" ∧
     (handleWorkspaceKey witnessModelC4b "d").2 =
       some (Cmd.discardChanges ((wsSelectedFile witnessModelC4b).file))) ∧
    ((handleToolsMenuKey witnessModelC4c "l").1.confirmAction = "" ∧
     (handleToolsMenuKey witnessModelC4c "l").2 = some Cmd.pullChanges) :=
  ⟨(c4_confirmation_protocol witnessModelC4).1
      (by decide) (by decide) (by decide) (by decide) rfl,
   (c4_confirmation_protocol witnessModelC4b).2.1
      (by decide) (by decide) (by decide) (by decide) rfl,
   (c4_confirmation_protocol witnessModelC4c).2.2.2.2.2.2.2.1 rfl⟩

end Gitty
